import Mathlib

/-!
Verification of the Prime-Bank-Chat-Bot dialogue orchestrator.

This file gives a shallow embedding, in Lean 4, of the session state machine
implemented in `chatbot/backend/pipelines/crew_pipeline.py` (the CrewAI
pipeline served by `app.py`) together with the eligibility-extraction step of
the simplified variant `chatbot/backend/pipelines/pipeline.py`, and proves or
refutes the specification claims about them.

External collaborators (the Ollama completion gateway and the CrewAI stage
runner) are modelled as oracle inputs: every raw text the Python code receives
from an external call is a parameter of the embedded function.  The Python
string methods used by the code (`split`, `strip`, `upper`, `lower`,
`partition`, `replace`, the `in` operator, `" ".join`, and `or` on strings)
are embedded as structural recursions over `List Char` so that every
definition evaluates inside the kernel.

Python dictionaries carrying string values are embedded as association lists
(`IDict`): a write prepends a binding, a read takes the first binding, so the
latest write wins, matching dict semantics for the operations the code uses.
-/

set_option maxHeartbeats 1000000

namespace PrimeBank

/-! ## Python string primitives -/

/-- Python whitespace test for `str.strip` (the characters the code can meet). -/
def isPySpace (c : Char) : Bool :=
  c == ' ' || c == '\t' || c == '\n' || c == '\r'

/-- `str.strip()` on the character list: drop whitespace at both ends. -/
def stripList (l : List Char) : List Char :=
  ((l.dropWhile isPySpace).reverse.dropWhile isPySpace).reverse

/-- Python `str.strip()`. -/
def pyStrip (s : String) : String := String.mk (stripList s.data)

/-- Split a character list at every occurrence of `c` (Python `str.split(c)`). -/
def splitCharList (c : Char) : List Char → List (List Char)
  | [] => [[]]
  | x :: xs =>
    let r := splitCharList c xs
    if x == c then [] :: r
    else
      match r with
      | [] => [[x]]
      | y :: ys => (x :: y) :: ys

/-- Python `str.split('\n')`: the lines of `s`. -/
def pyLines (s : String) : List String :=
  (splitCharList '\n' s.data).map String.mk

/-- Character membership, Python `c in s` for a single character. -/
def pyHasChar (s : String) (c : Char) : Bool := s.data.contains c

/-- Split a character list at the first colon; Python
`k, _, v = line.partition(':')` returns `(k, v)`. -/
def breakColonList : List Char → List Char × List Char
  | [] => ([], [])
  | x :: xs =>
    if x == ':' then ([], xs)
    else
      let r := breakColonList xs
      (x :: r.1, r.2)

/-- Python `line.partition(':')`, keeping the pre- and post-colon parts. -/
def pyPartitionColon (s : String) : String × String :=
  let r := breakColonList s.data
  (String.mk r.1, String.mk r.2)

/-- ASCII upper-casing of one character (Python `str.upper` on the code's data). -/
def upChar (c : Char) : Char :=
  if 'a' ≤ c && c ≤ 'z' then Char.ofNat (c.toNat - 32) else c

/-- ASCII lower-casing of one character (Python `str.lower` on the code's data). -/
def lowChar (c : Char) : Char :=
  if 'A' ≤ c && c ≤ 'Z' then Char.ofNat (c.toNat + 32) else c

/-- Python `str.upper()`. -/
def pyUpper (s : String) : String := String.mk (s.data.map upChar)

/-- Python `str.lower()`. -/
def pyLower (s : String) : String := String.mk (s.data.map lowChar)

/-- Python `str.replace('_', ' ')`. -/
def pyUnderscoreToSpace (s : String) : String :=
  String.mk (s.data.map (fun c => if c == '_' then ' ' else c))

/-- Prefix test on character lists. -/
def hasPrefixList : List Char → List Char → Bool
  | [], _ => true
  | _ :: _, [] => false
  | p :: ps, x :: xs => p == x && hasPrefixList ps xs

/-- Substring search on character lists. -/
def hasInfixList (pat : List Char) : List Char → Bool
  | [] => pat.isEmpty
  | x :: xs => hasPrefixList pat (x :: xs) || hasInfixList pat xs

/-- Python substring operator `pat in s`. -/
def pyIn (pat s : String) : Bool := hasInfixList pat.data s.data

/-- Python `or` on strings: the left operand unless it is falsy (empty). -/
def strOr (a b : String) : String := if a = "" then b else a

/-- Python `sep.join(parts)`. -/
def pyJoin (sep : String) : List String → String
  | [] => ""
  | [x] => x
  | x :: xs => x ++ sep ++ pyJoin sep xs

/-! ## Python dict with string values -/

/-- A Python `dict[str, str]`: association list, first binding wins. -/
abbrev IDict := List (String × String)

/-- `d[k] = v`: prepend, so the new binding shadows any old one. -/
def dput (d : IDict) (k v : String) : IDict := (k, v) :: d

/-- `d.get(k, default)`. -/
def dget (d : IDict) (k default : String) : String :=
  match d.find? (fun p => p.1 == k) with
  | some p => p.2
  | none => default

/-- `k in d`. -/
def dhas (d : IDict) (k : String) : Bool := d.any (fun p => p.1 == k)

/-- `d.update(e)`: the bindings of `e` win over those of `d`. -/
def dupdate (d e : IDict) : IDict := e ++ d

/-! ## Intent frames

`crew_pipeline.py` passes intent frames around as Python dicts with the seven
keys written by `_parse_intent` / `_detect_intent`.  Every frame the code
builds carries all seven keys, so we embed a frame as a structure.  The
previous confirmed frame (`SessionState.intent`) starts as the empty dict
`{}`; we embed it as `Option Frame`, `none` standing for `{}`. -/

structure Frame where
  product_type : String
  banking_type : String
  tier : String
  use_case : String
  employment : String
  intent_type : String
  needs_clarification : Bool
deriving DecidableEq, Repr

/-- The validated raw extraction fields of `_parse_intent`
(crew_pipeline.py lines 700-733), before the comparison rewrite. -/
structure RawFields where
  query_type : String
  product_type : String
  banking_type : String
  tier : String
  use_case : String
  employment : String
  intent_type : String
deriving DecidableEq, Repr

/-- The parsing loop of `_parse_intent` (crew_pipeline.py lines 702-706):
`for line in str(raw).strip().split('\n'): if ':' in line:
parsed[k.strip().upper()] = v.strip().lower()`. -/
def parseKV (raw : String) : IDict :=
  (pyLines (pyStrip raw)).foldl
    (fun acc line =>
      if pyHasChar line ':' then
        let kv := pyPartitionColon line
        dput acc (pyUpper (pyStrip kv.1)) (pyLower (pyStrip kv.2))
      else acc) []

/-- Field reads, the `islamic → islami` normalization, and the closed-set
validation of `_parse_intent` (crew_pipeline.py lines 708-733). -/
def validateFields (kv : IDict) : RawFields :=
  let query_type := dget kv "QUERY_TYPE" "banking"
  let product_type0 := dget kv "PRODUCT_TYPE" "general"
  let banking_type0 := dget kv "BANKING_TYPE" "unknown"
  let banking_type1 := if banking_type0 == "islamic" then "islami" else banking_type0
  let tier0 := dget kv "TIER" "unknown"
  let banking_type :=
    if banking_type1 == "conventional" || banking_type1 == "islami" ||
       banking_type1 == "unknown" || banking_type1 == "" then banking_type1
    else "unknown"
  let tier :=
    if tier0 == "gold" || tier0 == "platinum" || tier0 == "silver" ||
       tier0 == "unknown" || tier0 == "" then tier0
    else "unknown"
  let product_type :=
    if product_type0 == "credit_card" || product_type0 == "debit_card" ||
       product_type0 == "loan" || product_type0 == "savings_account" ||
       product_type0 == "general" || product_type0 == "unknown" ||
       product_type0 == "" then product_type0
    else "general"
  let use_case := dget kv "USE_CASE" "unknown"
  let employment := dget kv "EMPLOYMENT" "unknown"
  let intent_type0 := dget kv "INTENT_TYPE" "product_info"
  let intent_type :=
    if intent_type0 == "product_info" || intent_type0 == "comparison" ||
       intent_type0 == "eligibility_check" || intent_type0 == "feature_query"
    then intent_type0
    else "product_info"
  { query_type := query_type, product_type := product_type,
    banking_type := banking_type, tier := tier, use_case := use_case,
    employment := employment, intent_type := intent_type }

/-- The short-circuit frame for `QUERY_TYPE` containing `greeting`
(crew_pipeline.py lines 737-741). -/
def greetingFrame : Frame :=
  { product_type := "general", banking_type := "unknown", tier := "unknown",
    use_case := "unknown", employment := "unknown", intent_type := "greeting",
    needs_clarification := false }

/-- The short-circuit frame for small talk (crew_pipeline.py lines 743-747). -/
def smallTalkFrame : Frame := { greetingFrame with intent_type := "small_talk" }

/-- `product_type not in ('general', 'unknown', '')`. -/
def productKnown (s : String) : Bool :=
  !(s == "general" || s == "unknown" || s == "")

/-- `value not in ('unknown', '')` for the other slots. -/
def fieldKnown (s : String) : Bool := !(s == "unknown" || s == "")

/-- The sufficiency computation and comparison rewrite of `_parse_intent`
(crew_pipeline.py lines 749-773), applied to the validated raw fields. -/
def classifyFrame (v : RawFields) : Frame :=
  let product_known := productKnown v.product_type
  let banking_known := fieldKnown v.banking_type
  let tier_known := fieldKnown v.tier
  let use_case_known := fieldKnown v.use_case
  let employment_known := fieldKnown v.employment
  let has_enough0 :=
    if v.product_type == "credit_card" || v.product_type == "loan" then
      product_known && banking_known && tier_known && employment_known
    else
      product_known && banking_known && tier_known && use_case_known
  let comparison_criteria_known := use_case_known || employment_known
  let rewrite := v.intent_type == "comparison" && !comparison_criteria_known
  { product_type := v.product_type, banking_type := v.banking_type,
    tier := v.tier, use_case := v.use_case, employment := v.employment,
    intent_type := if rewrite then "comparison_needs_criteria" else v.intent_type,
    needs_clarification := !(if rewrite then false else has_enough0) }

/-- `_parse_intent(raw, query)` of crew_pipeline.py (lines 700-773); `query`
only feeds log output, so it is not a parameter here. -/
def parseIntent (raw : String) : Frame :=
  let v := validateFields (parseKV raw)
  if pyIn "greeting" v.query_type then greetingFrame
  else if pyIn "small_talk" v.query_type || pyIn "small" v.query_type then
    smallTalkFrame
  else classifyFrame v

/-- `prev.get('product_type', 'general')` where `prev = previous_intent or {}`. -/
def prevProduct (prev : Option Frame) : String :=
  match prev with
  | none => "general"
  | some f => f.product_type

/-- `prev.get('banking_type', 'unknown')`. -/
def prevBanking (prev : Option Frame) : String :=
  match prev with
  | none => "unknown"
  | some f => f.banking_type

/-- `prev.get('tier', 'unknown')`. -/
def prevTier (prev : Option Frame) : String :=
  match prev with
  | none => "unknown"
  | some f => f.tier

/-- `prev.get('use_case', 'unknown')`. -/
def prevUseCase (prev : Option Frame) : String :=
  match prev with
  | none => "unknown"
  | some f => f.use_case

/-- `prev.get('employment', 'unknown')`. -/
def prevEmployment (prev : Option Frame) : String :=
  match prev with
  | none => "unknown"
  | some f => f.employment

/-- The needs-clarification recomputation on the persisted values
(`_detect_intent`, crew_pipeline.py lines 671-693): the slot-sufficiency
policy per intent type. -/
def sufficientPolicy (product banking tier use_case employment intent_type : String) : Bool :=
  let product_known := productKnown product
  let banking_known := fieldKnown banking
  let tier_known := fieldKnown tier
  let use_case_known := fieldKnown use_case
  let employment_known := fieldKnown employment
  if intent_type == "eligibility_check" then product_known
  else if intent_type == "comparison" then
    product_known && banking_known && tier_known
  else if product == "credit_card" || product == "loan" then
    product_known && banking_known && tier_known && employment_known
  else
    product_known && banking_known && tier_known && use_case_known

/-- `_detect_intent(query, history, previous_intent)` of crew_pipeline.py
(lines 568-698).  `query` and `history` only feed the gateway prompt; the
gateway's reply is the oracle input `raw`, and an empty `raw` is the gateway
failure case (lines 646-656). -/
def detectIntent (prev : Option Frame) (raw : String) : Frame :=
  if raw = "" then
    { product_type := prevProduct prev, banking_type := prevBanking prev,
      tier := prevTier prev, use_case := prevUseCase prev,
      employment := prevEmployment prev, intent_type := "product_info",
      needs_clarification := prevProduct prev == "general" }
  else
    let parsed := parseIntent raw
    let product :=
      if parsed.product_type != "unknown" then parsed.product_type
      else prevProduct prev
    let banking :=
      if parsed.banking_type != "unknown" then parsed.banking_type
      else prevBanking prev
    let tier := if parsed.tier != "unknown" then parsed.tier else prevTier prev
    let use_case :=
      if parsed.use_case != "unknown" then parsed.use_case else prevUseCase prev
    let employment :=
      if parsed.employment != "unknown" then parsed.employment
      else prevEmployment prev
    { product_type := product, banking_type := banking, tier := tier,
      use_case := use_case, employment := employment,
      intent_type := parsed.intent_type,
      needs_clarification :=
        !(sufficientPolicy product banking tier use_case employment
            parsed.intent_type) }

/-! ## Session state (crew_pipeline.py `SessionState`) -/

structure SessionState where
  products_text : Option String
  product_names : List String
  comparison_done : Bool
  eligibility_done : Bool
  intent : Option Frame
  eligibility_active : Bool
  eligibility_chat : List (String × String)
  eligibility_collected : IDict
  eligibility_product : Option String
deriving DecidableEq, Repr

/-- The state of a fresh session (`SessionState.__init__`). -/
def SessionState.init : SessionState :=
  { products_text := none, product_names := [], comparison_done := false,
    eligibility_done := false, intent := none, eligibility_active := false,
    eligibility_chat := [], eligibility_collected := [],
    eligibility_product := none }

/-- Python truthiness of an optional string (`None` and `""` are falsy). -/
def optTruthy : Option String → Bool
  | none => false
  | some s => s != ""

/-- `SessionState.has_products`: `bool(self.products_text)`. -/
def hasProducts (st : SessionState) : Bool := optTruthy st.products_text

/-- `SessionState.reset_products` (crew_pipeline.py lines 33-38). -/
def resetProducts (st : SessionState) : SessionState :=
  { st with
    products_text := none
    product_names := []
    comparison_done := false
    eligibility_done := false }

/-- `SessionState.reset_eligibility` (crew_pipeline.py lines 40-45). -/
def resetEligibility (st : SessionState) : SessionState :=
  { st with
    eligibility_active := false
    eligibility_chat := []
    eligibility_collected := []
    eligibility_product := none }

/-! ## Eligibility collector -/

/-- `ELIGIBILITY_REQUIRED` (crew_pipeline.py line 11, pipeline.py line 9). -/
def ELIGIBILITY_REQUIRED : List String :=
  ["age", "employment", "tenure", "income", "etin"]

/-- `ELIGIBILITY_OPTIONAL` (crew_pipeline.py line 12). -/
def ELIGIBILITY_OPTIONAL : List String := ["credit_history"]

/-- The label-to-field `mapping` dict used by both extractors
(crew_pipeline.py lines 199-202, pipeline.py lines 234-237). -/
def fieldMapping : IDict :=
  [("AGE", "age"), ("EMPLOYMENT", "employment"), ("TENURE", "tenure"),
   ("INCOME", "income"), ("ETIN", "etin"), ("CREDIT_HISTORY", "credit_history")]

/-- `_extract_eligibility_info(chat)` of crew_pipeline.py (lines 166-206):
re-extracts the collected map from the whole transcript.  The gateway's reply
to the extraction prompt is the oracle input `raw`. -/
def extractEligibilityInfo (chat : List (String × String)) (raw : String) : IDict :=
  if chat = [] then []
  else
    (pyLines (pyStrip raw)).foldl
      (fun acc line =>
        if pyHasChar line ':' then
          let kv := pyPartitionColon line
          let key := pyUpper (pyStrip kv.1)
          let val := pyLower (pyStrip kv.2)
          if dhas fieldMapping key && val != "unknown" then
            dput acc (dget fieldMapping key key) val
          else acc
        else acc) []

/-- `_get_missing_fields(collected)` (crew_pipeline.py lines 208-210). -/
def getMissingFields (collected : IDict) : List String :=
  ELIGIBILITY_REQUIRED.filter (fun f => !(dhas collected f))

/-- The hardcoded per-field fallback questions of
`_run_eligibility_conversation` (crew_pipeline.py lines 264-274). -/
def eligFallback (f : String) : String :=
  if f == "age" then "Could you please tell me your age?"
  else if f == "employment" then
    "Are you salaried, self-employed, or a business owner?"
  else if f == "tenure" then
    "How long have you been in your current job or business?"
  else if f == "income" then
    "What's your approximate monthly income (or annual revenue if self-employed)?"
  else if f == "etin" then "Do you have a valid E-TIN certificate? (yes/no)"
  else if f == "credit_history" then
    "Do you have any prior credit card or loan history? (yes/no)"
  else "Could you share your " ++ f ++ "?"

/-- Oracle inputs: one field per external text the Python turn can consume
(one gateway reply per call site, plus the CrewAI kickoff outputs). -/
structure Oracle where
  detectRaw : String
  greetingReply : String
  smallTalkReply : String
  criteriaReply : String
  clarifyReply : String
  eligAskReply : String
  eligExtractRaw : String
  eligOpening : String
  crewResponse : String
  crewRetrieval : String
deriving Repr

/-- The response dict returned by `CrewPipeline.run`. -/
structure RunResult where
  response : String
  agent_chain : List String
  products_found : List String
  needs_clarification : Bool
  detected_intent : Option Frame
deriving DecidableEq, Repr

/-- The ingest step of `_run_eligibility_conversation` (crew_pipeline.py
lines 217-222): append the user message to the transcript, then replace
`eligibility_collected` with a fresh extraction over the whole transcript. -/
def eligIngest (query : String) (st : SessionState) (o : Oracle) : SessionState :=
  let st1 :=
    if query != "" then
      { st with eligibility_chat := st.eligibility_chat ++ [("user", query)] }
    else st
  { st1 with eligibility_collected :=
      extractEligibilityInfo st1.eligibility_chat o.eligExtractRaw }

/-- `_run_eligibility_conversation(query, state)` (crew_pipeline.py lines
212-284): `none` means ready to assess, `some r` is the clarification turn. -/
def runEligConv (query : String) (st : SessionState) (o : Oracle) :
    Option RunResult × SessionState :=
  let st1 := eligIngest query st o
  match getMissingFields st1.eligibility_collected with
  | [] => (none, st1)
  | next_field :: _ =>
    let response := strOr o.eligAskReply (eligFallback next_field)
    let st2 :=
      { st1 with eligibility_chat :=
          st1.eligibility_chat ++ [("assistant", response)] }
    (some { response := response, agent_chain := ["Eligibility Conversation"],
            products_found := [], needs_clarification := true,
            detected_intent := st2.intent }, st2)

/-- The `label_map` of `_format_eligibility_profile`
(crew_pipeline.py lines 290-297). -/
def eligLabels : List (String × String) :=
  [("age", "Age"), ("employment", "Employment Type"),
   ("tenure", "Job/Business Tenure"), ("income", "Monthly Income"),
   ("etin", "Has E-TIN"), ("credit_history", "Credit History")]

/-- `_format_eligibility_profile(collected, intent)` (crew_pipeline.py lines
286-310).  While the eligibility flow is active `state.intent` is a full
frame; the `none` case (the empty dict) is unreachable there. -/
def formatEligProfile (collected : IDict) (intent : Option Frame) : String :=
  let parts := eligLabels.foldl
    (fun acc kl =>
      let v := dget collected kl.1 ""
      if v != "" then acc ++ [kl.2 ++ ": " ++ v] else acc) []
  let parts :=
    match intent with
    | none => parts
    | some f =>
      let parts :=
        if fieldKnown f.banking_type then
          parts ++ ["Banking Preference: " ++ f.banking_type]
        else parts
      if fieldKnown f.tier then parts ++ ["Preferred Tier: " ++ f.tier]
      else parts
  if parts = [] then "No profile data collected" else pyJoin "; " parts

/-! ## Stage sequencer (`BankChatbotCrew.run_agents`) -/

/-- The `needs_retrieval` gate (crew_pipeline.py lines 66-71). -/
def needsRetrieval (intent_type : String) (st : SessionState) : Bool :=
  !(hasProducts st) || intent_type == "product_info" ||
    intent_type == "eligibility_check" ||
    (intent_type == "comparison" && !(hasProducts st))

/-- `run_agents(query, intent_type, state, customer_profile)` (crew_pipeline.py
lines 56-149).  Prompt construction feeds the external crew only; the kickoff
output is `o.crewResponse` and the retrieval task's captured output is
`o.crewRetrieval`.  The task list always ends with the formatter, so the guard
`if needs_retrieval and tasks` reduces to `needs_retrieval`, and the cached
text is `str(getattr(tasks[0], 'output', '')) or response`. -/
def runAgents (intent_type : String) (st : SessionState) (o : Oracle) :
    String × Option String :=
  let response := o.crewResponse
  let retrieved :=
    if needsRetrieval intent_type st then some (strOr o.crewRetrieval response)
    else none
  (response, retrieved)

/-! ## Filter-change cache invalidator -/

/-- `value not in ('unknown', 'general', '')` (crew_pipeline.py line 497). -/
def knownVal (s : String) : Bool :=
  !(s == "unknown" || s == "general" || s == "")

/-- Dict-style read of a frame's slot for the filter keys
(`old_intent.get(key, 'unknown')`). -/
def frameGet (f : Frame) (k : String) : String :=
  if k == "product_type" then f.product_type
  else if k == "banking_type" then f.banking_type
  else if k == "tier" then f.tier
  else "unknown"

/-- The keys compared by `_filters_changed` (crew_pipeline.py line 493). -/
def filterKeys : List String := ["product_type", "banking_type", "tier"]

/-- `_filters_changed(new_intent, old_intent)` (crew_pipeline.py lines
489-501); `none` is the empty previous dict, for which the code returns
`False` at once. -/
def filtersChanged (newIntent : Frame) (old : Option Frame) : Bool :=
  match old with
  | none => false
  | some o =>
    filterKeys.any (fun key =>
      let old_val := frameGet o key
      let new_val := frameGet newIntent key
      knownVal old_val && knownVal new_val && old_val != new_val)

/-! ## Clarifying questions -/

/-- `_fallback_questions(product_type, detected_info)` (crew_pipeline.py
lines 804-813). -/
def fallbackQuestions (product_type : String) (f : Frame) : String :=
  let q := ["I'd love to help you find the right " ++
    pyUnderscoreToSpace product_type ++ "! "]
  let q :=
    if f.banking_type == "unknown" then
      q ++ ["Do you prefer Islamic (Shariah-compliant) or Conventional banking?"]
    else q
  let q :=
    if f.use_case == "unknown" then
      q ++ ["What will you mainly use it for — travel, shopping, dining, or business?"]
    else q
  let q :=
    if f.tier == "unknown" then
      q ++ ["Are you interested in Gold, Platinum, or Silver tier?"]
    else q
  pyJoin " " q

/-- `_generate_clarifying_questions(detected_product, detected_info, history)`
(crew_pipeline.py lines 775-802); the gateway reply is `o.clarifyReply`. -/
def generateClarifyingQuestions (detected_product : String) (f : Frame)
    (o : Oracle) : String :=
  let missing : List String :=
    (if f.banking_type == "unknown" then
      ["Islamic or Conventional banking preference"] else []) ++
    (if f.use_case == "unknown" then
      ["main purpose: travel, shopping, dining, or business"] else []) ++
    (if f.tier == "unknown" then
      ["preferred tier: Gold, Platinum, or Silver"] else []) ++
    (if f.employment == "unknown" &&
        (detected_product == "credit_card" || detected_product == "loan") then
      ["employment type: salaried, self-employed, or business owner"] else [])
  if missing = [] then fallbackQuestions detected_product f
  else strOr o.clarifyReply (fallbackQuestions detected_product f)

/-- `_describe_agents(intent_type, state)` (crew_pipeline.py lines 503-513). -/
def describeAgents (intent_type : String) (st : SessionState) : List String :=
  (if !(hasProducts st) then ["Product Retriever"] else []) ++
  (if intent_type == "comparison" then ["Comparator"] else []) ++
  (if intent_type == "eligibility_check" then ["Eligibility Analyzer"] else []) ++
  ["Formatter"]

/-! ## Dialogue orchestrator (`CrewPipeline.run`) -/

/-- `CrewPipeline.run(query, customer_info, conversation_history, session_id)`
(crew_pipeline.py lines 312-487) for one session.  `conversation_history` and
`customer_info` only feed gateway prompts (here `customer_info` is `None`, so
the profile string is empty); every external reply is a field of `o`. -/
def runCrew (query : String) (st : SessionState) (o : Oracle) :
    RunResult × SessionState :=
  if st.eligibility_active then
    match runEligConv query st o with
    | (some res, st1) => (res, st1)
    | (none, st1) =>
      let ra := runAgents "eligibility_check" st1 o
      let st2 :=
        if optTruthy ra.2 then { st1 with products_text := ra.2 } else st1
      let st3 := resetEligibility { st2 with eligibility_done := true }
      ({ response := ra.1,
         agent_chain := ["Eligibility Conversation", "Product Retriever",
           "Eligibility Analyzer", "Formatter"],
         products_found := st3.product_names, needs_clarification := false,
         detected_intent := st3.intent }, st3)
  else
    let intent := detectIntent st.intent o.detectRaw
    if intent.intent_type == "greeting" then
      ({ response := strOr o.greetingReply
           "Hello! 👋 Welcome to Prime Bank. How can I assist you today?",
         agent_chain := [], products_found := [],
         needs_clarification := false, detected_intent := some intent }, st)
    else if intent.intent_type == "small_talk" then
      ({ response := strOr o.smallTalkReply
           "I'm here to help with your banking needs! Feel free to ask about our cards, loans, or accounts.",
         agent_chain := [], products_found := [],
         needs_clarification := false, detected_intent := some intent }, st)
    else if intent.intent_type == "comparison_needs_criteria" then
      ({ response := strOr o.criteriaReply
           "To find the best match, what matters most to you — travel perks, dining benefits, international use, or insurance coverage?",
         agent_chain := ["Intent Detector"], products_found := [],
         needs_clarification := true, detected_intent := some intent }, st)
    else
      let st1 :=
        if hasProducts st && filtersChanged intent st.intent then
          resetProducts st
        else st
      if intent.needs_clarification then
        let st2 := { st1 with intent := some intent }
        ({ response := generateClarifyingQuestions intent.product_type intent o,
           agent_chain := ["Intent Detector"], products_found := [],
           needs_clarification := true, detected_intent := some intent }, st2)
      else
        let intent_type := intent.intent_type
        if intent_type == "eligibility_check" then
          let product := pyStrip (intent.tier ++ " " ++ intent.product_type ++
            " (" ++ intent.banking_type ++ " banking)")
          let opening := strOr o.eligOpening
            ("Happy to check your eligibility for the " ++ product ++
              "! Could you start by telling me your age?")
          let st2 := { st1 with
            intent := some intent
            eligibility_active := true
            eligibility_product := some product }
          let st3 := { st2 with eligibility_chat :=
            st2.eligibility_chat ++ [("assistant", opening)] }
          ({ response := opening, agent_chain := ["Eligibility Conversation"],
             products_found := [], needs_clarification := true,
             detected_intent := some intent }, st3)
        else
          let ra := runAgents intent_type st1 o
          let st2 :=
            if optTruthy ra.2 then { st1 with products_text := ra.2 } else st1
          let st3 :=
            if intent_type == "comparison" then
              { st2 with comparison_done := true }
            else st2
          let st4 := { st3 with intent := some intent }
          ({ response := ra.1, agent_chain := describeAgents intent_type st4,
             products_found := st4.product_names,
             needs_clarification := false,
             detected_intent := some intent }, st4)

/-! ## The simplified variant's eligibility extraction (pipeline.py) -/

/-- One line of the extraction loop of `_extract_from_message` (pipeline.py
lines 228-242): accept a mapped, non-empty, non-`unknown` value only for a
field not already confirmed. -/
def extractMsgStep (already_collected : IDict) (acc : IDict) (line : String) :
    IDict :=
  if pyHasChar line ':' then
    let kv := pyPartitionColon line
    let key := pyUpper (pyStrip kv.1)
    let val := pyLower (pyStrip kv.2)
    if dhas fieldMapping key && val != "" && val != "unknown" then
      let field := dget fieldMapping key key
      if !(dhas already_collected field) then dput acc field val else acc
    else acc
  else acc

/-- `_extract_from_message(user_message, already_collected)` of pipeline.py
(lines 188-244): single-message extraction that skips fields already
confirmed.  The gateway reply is `raw`. -/
def extractFromMessage (user_message : String) (already_collected : IDict)
    (raw : String) : IDict :=
  if user_message = "" then []
  else (pyLines (pyStrip raw)).foldl (extractMsgStep already_collected) []

/-- The collected-map update of pipeline.py's
`_run_eligibility_conversation` (lines 254-261): extract from the current
message, then `collected.update(newly_extracted)` when non-empty. -/
def pipelineEligStep (query : String) (collected : IDict) (raw : String) :
    IDict :=
  if query != "" then
    let newly := extractFromMessage query collected raw
    if newly != [] then dupdate collected newly else collected
  else collected

/-! ## Concrete inputs used by counterexamples and witnesses -/

/-- An oracle on which every external call fails (empty reply everywhere). -/
def emptyOracle : Oracle :=
  { detectRaw := "", greetingReply := "", smallTalkReply := "",
    criteriaReply := "", clarifyReply := "", eligAskReply := "",
    eligExtractRaw := "", eligOpening := "", crewResponse := "",
    crewRetrieval := "" }

/-- A fully confirmed previous frame. -/
def prevFullFrame : Frame :=
  { product_type := "credit_card", banking_type := "conventional",
    tier := "gold", use_case := "travel", employment := "salaried",
    intent_type := "product_info", needs_clarification := false }

/-- A previous frame where only the product type is known. -/
def prevOnlyProduct : Frame :=
  { product_type := "credit_card", banking_type := "unknown",
    tier := "unknown", use_case := "unknown", employment := "unknown",
    intent_type := "product_info", needs_clarification := true }

/-- A gateway extraction whose product slot carries its unknown sentinel
`general` and whose other slots are `unknown`. -/
def rawGeneralProduct : String :=
  "QUERY_TYPE: banking\nPRODUCT_TYPE: general\nBANKING_TYPE: unknown\nTIER: unknown\nUSE_CASE: unknown\nEMPLOYMENT: unknown\nINTENT_TYPE: product_info"

/-- A comparison extraction with both ranking criteria unknown in the raw
message (product, banking and tier known). -/
def rawComparisonNoCriteria : String :=
  "QUERY_TYPE: banking\nPRODUCT_TYPE: credit_card\nBANKING_TYPE: conventional\nTIER: gold\nUSE_CASE: unknown\nEMPLOYMENT: unknown\nINTENT_TYPE: comparison"

/-- A fully known product_info extraction. -/
def rawFullProductInfo : String :=
  "QUERY_TYPE: banking\nPRODUCT_TYPE: credit_card\nBANKING_TYPE: conventional\nTIER: gold\nUSE_CASE: travel\nEMPLOYMENT: salaried\nINTENT_TYPE: product_info"

/-- A session that already holds cached retrieval text. -/
def stWithCache : SessionState :=
  { SessionState.init with products_text := some "cached products" }

/-- An active eligibility session that has already collected age 28. -/
def stEligAge28 : SessionState :=
  { SessionState.init with
    eligibility_active := true
    eligibility_chat :=
      [("assistant", "Could you please tell me your age?"), ("user", "I am 28")]
    eligibility_collected := [("age", "28")] }

/-- An oracle whose transcript re-extraction now reads the age as 30. -/
def oracleAge30 : Oracle :=
  { emptyOracle with eligExtractRaw :=
      "AGE: 30\nEMPLOYMENT: unknown\nTENURE: unknown\nINCOME: unknown\nETIN: unknown\nCREDIT_HISTORY: unknown" }

/-- An oracle whose eligibility extraction yields all five required fields. -/
def oracleAllFields : Oracle :=
  { emptyOracle with eligExtractRaw :=
      "AGE: 28\nEMPLOYMENT: salaried\nTENURE: 3 years\nINCOME: 80000 bdt\nETIN: yes\nCREDIT_HISTORY: unknown" }

/-- An oracle where intent detection succeeds with a fully known product_info
frame but every stage/crew output is empty. -/
def oracleCrewEmpty : Oracle :=
  { emptyOracle with detectRaw := rawFullProductInfo }

/-- The validated raw fields of `rawComparisonNoCriteria`: a comparison with
both raw ranking criteria unknown. -/
def rawFieldsComparisonUnknown : RawFields :=
  { query_type := "banking", product_type := "credit_card",
    banking_type := "conventional", tier := "gold", use_case := "unknown",
    employment := "unknown", intent_type := "comparison" }

/-! # Theorems -/

/-! ## General-purpose lemmas -/

theorem string_append_ne_empty_left (a b : String) (h : a ≠ "") :
    a ++ b ≠ "" := by
  intro hc
  apply h
  have hl := congrArg String.length hc
  rw [String.length_append] at hl
  have ha : a.length = 0 := by
    have : a.length + b.length = 0 := by simpa using hl
    omega
  cases a with
  | mk data =>
    simp [String.length] at ha
    simp [ha]

theorem strOr_ne_empty (a b : String) (h : b ≠ "") : strOr a b ≠ "" := by
  unfold strOr
  split
  · exact h
  · assumption

theorem pyJoin_cons_ne_empty (sep a : String) (l : List String) (h : a ≠ "") :
    pyJoin sep (a :: l) ≠ "" := by
  cases l with
  | nil => simpa [pyJoin] using h
  | cons x xs =>
    simp only [pyJoin]
    exact string_append_ne_empty_left _ _ (string_append_ne_empty_left _ _ h)

/-! ## C3 — filter-change cache invalidation -/

/-- C3: `_filters_changed(new_frame, old_frame)` returns true exactly when
some key among product_type, banking_type, tier has both its old and its new
value known (not `unknown`, `general` or empty) and the two values differ. -/
theorem filters_changed_iff (newIntent old : Frame) :
    filtersChanged newIntent (some old) = true ↔
      ∃ k ∈ filterKeys, knownVal (frameGet old k) = true ∧
        knownVal (frameGet newIntent k) = true ∧
        frameGet old k ≠ frameGet newIntent k := by
  simp [filtersChanged, List.any_eq_true, Bool.and_eq_true, bne_iff_ne,
    and_assoc]

/-- C3 witness: old tier `gold` against new tier `platinum` (both known,
different) triggers invalidation, while an old tier `unknown` against new
tier `platinum` does not. -/
theorem filters_changed_iff_witness :
    filtersChanged prevFullFrame
      (some { prevFullFrame with tier := "platinum" }) = true ∧
    filtersChanged { prevFullFrame with tier := "unknown" }
      (some prevFullFrame) = false := by
  constructor
  · exact (filters_changed_iff prevFullFrame
      { prevFullFrame with tier := "platinum" }).mpr
      ⟨"tier", by decide, by decide, by decide, by decide⟩
  · decide

/-! ## C10 — empty previous frame never invalidates -/

/-- C10: with an empty previous confirmed frame (the fresh session's `{}`),
`_filters_changed` returns false whatever the new frame holds. -/
theorem filters_unchanged_on_empty_previous (newIntent : Frame) :
    filtersChanged newIntent none = false := rfl

/-! ## C4 — retrieval gating for product_info -/

/-- C4 counterexample: with cached retrieval present, a `product_info` turn
still sets `needs_retrieval`, so the retrieval stage runs and its output is
captured — the claim says it must not run. -/
theorem product_info_retrieval_gating_cx :
    hasProducts stWithCache = true ∧
    needsRetrieval "product_info" stWithCache = true ∧
    (runAgents "product_info" stWithCache emptyOracle).2 ≠ none := by decide

/-- C4 amended: the retrieval stage runs on every `product_info` turn,
cached retrieval or not (`intent_type == 'product_info'` is an unconditional
disjunct of `needs_retrieval`). -/
theorem product_info_always_retrieves (st : SessionState) :
    needsRetrieval "product_info" st = true := by
  simp [needsRetrieval]

/-! ## C7 — eligibility collector termination -/

/-- C7: in an active eligibility sub-conversation, when the collected map
recomputed for the current turn holds all five required fields, the collector
returns `None` (ready to assess) instead of a clarification turn; the
optional `credit_history` field is not in `ELIGIBILITY_REQUIRED`, so it never
blocks this. -/
theorem elig_none_when_required_collected (query : String) (st : SessionState)
    (o : Oracle)
    (h : ∀ f ∈ ELIGIBILITY_REQUIRED,
      dhas (eligIngest query st o).eligibility_collected f = true) :
    (runEligConv query st o).1 = none := by
  have hm : getMissingFields (eligIngest query st o).eligibility_collected = [] := by
    rw [getMissingFields, List.filter_eq_nil_iff]
    intro f hf
    simp [h f hf]
  unfold runEligConv
  dsimp only
  rw [hm]

/-- C7 witness: a concrete turn whose transcript extraction yields all five
required fields (and no `credit_history`) makes the collector return `None`. -/
theorem elig_none_when_required_collected_witness :
    (runEligConv "here you go" stEligAge28 oracleAllFields).1 = none :=
  elig_none_when_required_collected "here you go" stEligAge28 oracleAllFields
    (by decide)

/-! ## C9 — the collector only asks for required fields, in order -/

/-- C9: the field the collector asks for next is the first element of the
required order [age, employment, tenure, income, etin] not yet collected; it
is always one of the five required fields and never `credit_history`. -/
theorem next_field_first_missing_required (collected : IDict) (f : String)
    (h : (getMissingFields collected).head? = some f) :
    f ∈ ELIGIBILITY_REQUIRED ∧ f ≠ "credit_history" ∧
      ((f = "age" ∧ dhas collected "age" = false) ∨
       (f = "employment" ∧ dhas collected "age" = true ∧
         dhas collected "employment" = false) ∨
       (f = "tenure" ∧ dhas collected "age" = true ∧
         dhas collected "employment" = true ∧
         dhas collected "tenure" = false) ∨
       (f = "income" ∧ dhas collected "age" = true ∧
         dhas collected "employment" = true ∧
         dhas collected "tenure" = true ∧ dhas collected "income" = false) ∨
       (f = "etin" ∧ dhas collected "age" = true ∧
         dhas collected "employment" = true ∧
         dhas collected "tenure" = true ∧ dhas collected "income" = true ∧
         dhas collected "etin" = false)) := by
  by_cases h1 : dhas collected "age" = true <;>
  by_cases h2 : dhas collected "employment" = true <;>
  by_cases h3 : dhas collected "tenure" = true <;>
  by_cases h4 : dhas collected "income" = true <;>
  by_cases h5 : dhas collected "etin" = true <;>
  simp [getMissingFields, ELIGIBILITY_REQUIRED, List.filter, h1, h2, h3, h4,
    h5] at h ⊢ <;>
  simp [← h, h1, h2, h3, h4, h5]

/-- C9 witness: with only the age collected, the next field asked for is
`employment`, the first still-missing required field. -/
theorem next_field_first_missing_required_witness :
    "employment" ∈ ELIGIBILITY_REQUIRED ∧ "employment" ≠ "credit_history" ∧
      (("employment" : String) = "age" ∧
        dhas [("age", "28")] "age" = false) ∨
      (("employment" : String) = "employment" ∧
        dhas [("age", "28")] "age" = true ∧
        dhas [("age", "28")] "employment" = false) ∨
      (("employment" : String) = "tenure" ∧ dhas [("age", "28")] "age" = true ∧
        dhas [("age", "28")] "employment" = true ∧
        dhas [("age", "28")] "tenure" = false) ∨
      (("employment" : String) = "income" ∧ dhas [("age", "28")] "age" = true ∧
        dhas [("age", "28")] "employment" = true ∧
        dhas [("age", "28")] "tenure" = true ∧
        dhas [("age", "28")] "income" = false) ∨
      (("employment" : String) = "etin" ∧ dhas [("age", "28")] "age" = true ∧
        dhas [("age", "28")] "employment" = true ∧
        dhas [("age", "28")] "tenure" = true ∧
        dhas [("age", "28")] "income" = true ∧
        dhas [("age", "28")] "etin" = false) := by
  have := next_field_first_missing_required [("age", "28")] "employment"
    (by decide)
  tauto

/-! ## C1 — sticky merge -/

/-- C1 counterexample: the product slot's unknown sentinel in a raw
extraction is `general`, but the merge of `_detect_intent` only tests
`!= 'unknown'`, so a raw `general` replaces the confirmed `credit_card`
instead of keeping it. -/
theorem sticky_merge_cx :
    (parseIntent rawGeneralProduct).product_type = "general" ∧
    prevFullFrame.product_type = "credit_card" ∧
    (detectIntent (some prevFullFrame) rawGeneralProduct).product_type =
      "general" := by decide

/-- C1 amended: the merge is per-slot override-if-known with the single
sentinel `unknown` for every slot, product_type included: a slot keeps the
previously confirmed value exactly when the raw value is `unknown` (so a raw
product_type of `general` does overwrite); in particular a raw tier of
`unknown` keeps the confirmed tier. -/
theorem sticky_merge_amended (prev : Option Frame) (raw : String)
    (h : raw ≠ "") :
    ((parseIntent raw).product_type = "unknown" →
      (detectIntent prev raw).product_type = prevProduct prev) ∧
    ((parseIntent raw).product_type ≠ "unknown" →
      (detectIntent prev raw).product_type = (parseIntent raw).product_type) ∧
    ((parseIntent raw).banking_type = "unknown" →
      (detectIntent prev raw).banking_type = prevBanking prev) ∧
    ((parseIntent raw).banking_type ≠ "unknown" →
      (detectIntent prev raw).banking_type = (parseIntent raw).banking_type) ∧
    ((parseIntent raw).tier = "unknown" →
      (detectIntent prev raw).tier = prevTier prev) ∧
    ((parseIntent raw).tier ≠ "unknown" →
      (detectIntent prev raw).tier = (parseIntent raw).tier) ∧
    ((parseIntent raw).use_case = "unknown" →
      (detectIntent prev raw).use_case = prevUseCase prev) ∧
    ((parseIntent raw).use_case ≠ "unknown" →
      (detectIntent prev raw).use_case = (parseIntent raw).use_case) ∧
    ((parseIntent raw).employment = "unknown" →
      (detectIntent prev raw).employment = prevEmployment prev) ∧
    ((parseIntent raw).employment ≠ "unknown" →
      (detectIntent prev raw).employment = (parseIntent raw).employment) := by
  unfold detectIntent
  simp only [if_neg h]
  refine ⟨?_, ?_, ?_, ?_, ?_, ?_, ?_, ?_, ?_, ?_⟩ <;> intro hx <;>
    simp [hx, bne_iff_ne]

/-- C1 witness: with the raw tier `unknown`, the merged tier is the
confirmed frame's `gold`. -/
theorem sticky_merge_amended_witness :
    (parseIntent rawGeneralProduct).tier = "unknown" ∧
    (detectIntent (some prevFullFrame) rawGeneralProduct).tier =
      prevTier (some prevFullFrame) :=
  ⟨by decide,
    (sticky_merge_amended (some prevFullFrame) rawGeneralProduct
      (by decide)).2.2.2.2.1 (by decide)⟩

/-! ## C5 — extractor failure fallback -/

/-- C5 counterexample: with a previous frame knowing only
product_type = credit_card, the empty-gateway fallback reports
`needs_clarification = False`, while the §4.2 slot-sufficiency policy (the
same computation the success path runs) deems that frame insufficient —
so the fallback does not recompute `needs_clarification` by the policy. -/
theorem extractor_fallback_cx :
    (detectIntent (some prevOnlyProduct) "").needs_clarification = false ∧
    sufficientPolicy prevOnlyProduct.product_type prevOnlyProduct.banking_type
      prevOnlyProduct.tier prevOnlyProduct.use_case prevOnlyProduct.employment
      "product_info" = false := by decide

/-- C5 amended: on an empty gateway reply the extractor returns the previous
frame's five slot values unchanged with intent_type `product_info` (and never
fails), but `needs_clarification` is the bare test `product_type == general`
on the previous frame, not the §4.2 policy. -/
theorem extractor_fallback_amended (prev : Option Frame) :
    (detectIntent prev "").product_type = prevProduct prev ∧
    (detectIntent prev "").banking_type = prevBanking prev ∧
    (detectIntent prev "").tier = prevTier prev ∧
    (detectIntent prev "").use_case = prevUseCase prev ∧
    (detectIntent prev "").employment = prevEmployment prev ∧
    (detectIntent prev "").intent_type = "product_info" ∧
    ((detectIntent prev "").needs_clarification = true ↔
      prevProduct prev = "general") := by
  unfold detectIntent
  simp

/-! ## C6 — comparison criterion rewrite -/

/-- C6 counterexample: the previous frame knows use_case `travel` and
employment `salaried`, both sticky-merged into the new frame, yet the intent
is rewritten to `comparison_needs_criteria` because the raw extraction's own
criteria slots were `unknown` — the claim's merged-frame reading says the
intent should have stayed `comparison`. -/
theorem comparison_criteria_cx :
    (detectIntent (some prevFullFrame) rawComparisonNoCriteria).use_case =
      "travel" ∧
    (detectIntent (some prevFullFrame) rawComparisonNoCriteria).employment =
      "salaried" ∧
    (detectIntent (some prevFullFrame) rawComparisonNoCriteria).intent_type =
      "comparison_needs_criteria" := by decide

/-- C6 amended: the criterion test runs inside `_parse_intent` on the raw
extracted use_case/employment, before the sticky merge: a raw comparison with
both raw criteria unknown becomes `comparison_needs_criteria` (and
insufficient) even when the merged frame inherits a known criterion from the
previous turn; if at least one raw criterion is known the intent stays
`comparison`. -/
theorem comparison_rewrite_amended (v : RawFields)
    (h : v.intent_type = "comparison") :
    ((fieldKnown v.use_case = false ∧ fieldKnown v.employment = false) →
      (classifyFrame v).intent_type = "comparison_needs_criteria" ∧
      (classifyFrame v).needs_clarification = true) ∧
    ((fieldKnown v.use_case = true ∨ fieldKnown v.employment = true) →
      (classifyFrame v).intent_type = "comparison") := by
  unfold classifyFrame
  constructor
  · rintro ⟨hu, he⟩
    simp [h, hu, he]
  · rintro (hu | hu) <;> simp [h, hu]

/-- C6 witness: a concrete raw comparison with unknown criteria is rewritten
and marked insufficient. -/
theorem comparison_rewrite_amended_witness :
    (classifyFrame rawFieldsComparisonUnknown).intent_type =
      "comparison_needs_criteria" ∧
    (classifyFrame rawFieldsComparisonUnknown).needs_clarification = true :=
  (comparison_rewrite_amended rawFieldsComparisonUnknown rfl).1 (by decide)

/-! ## C2 — eligibility field immutability -/

/-- C2 counterexample: in the CrewPipeline the collected map is recomputed
from the whole transcript each turn; after `collected["age"] = "28"`, a turn
whose transcript extraction reads the age as 30 leaves
`collected["age"] = "30"`, so a collected field is not immutable. -/
theorem elig_immutability_cx :
    dget stEligAge28.eligibility_collected "age" "unknown" = "28" ∧
    dget (runEligConv "I'm actually 30" stEligAge28
        oracleAge30).2.eligibility_collected "age" "unknown" = "30" := by
  decide

/-- Everything `extractMsgStep` adds to the accumulator concerns a field not
already confirmed. -/
theorem extractMsgStep_mem (already acc : IDict) (line : String)
    (p : String × String) (hp : p ∈ extractMsgStep already acc line) :
    p ∈ acc ∨ dhas already p.1 = false := by
  unfold extractMsgStep at hp
  split at hp
  case isTrue =>
    dsimp only at hp
    split at hp
    case isTrue =>
      split at hp
      case isTrue hguard =>
        rcases List.mem_cons.1 hp with h | h
        · right
          rw [h]
          simpa using hguard
        · exact Or.inl h
      case isFalse => exact Or.inl hp
    case isFalse => exact Or.inl hp
  case isFalse => exact Or.inl hp

/-- The extraction loop never introduces an already-confirmed field. -/
theorem extract_foldl_mem (already : IDict) (ls : List String) (acc : IDict)
    (p : String × String)
    (hp : p ∈ ls.foldl (extractMsgStep already) acc) :
    p ∈ acc ∨ dhas already p.1 = false := by
  induction ls generalizing acc with
  | nil => exact Or.inl hp
  | cons l ls ih =>
    rcases ih (extractMsgStep already acc l) hp with h | h
    · exact extractMsgStep_mem already acc l p h
    · exact Or.inr h

/-- `_extract_from_message` only yields fields absent from
`already_collected`. -/
theorem extractFromMessage_not_collected (q : String) (already : IDict)
    (raw : String) (p : String × String)
    (hp : p ∈ extractFromMessage q already raw) :
    dhas already p.1 = false := by
  unfold extractFromMessage at hp
  split at hp
  · simp at hp
  · rcases extract_foldl_mem already (pyLines (pyStrip raw)) [] p hp with h | h
    · simp at h
    · exact h

/-- C2 amended: the immutability invariant holds in the simplified Pipeline
variant (pipeline.py): its per-turn update step extracts only fields not yet
confirmed and merges them with `update`, so an already-collected field keeps
its value for the remainder of the sub-conversation.  The CrewPipeline
variant instead rebuilds the collected map from the transcript every turn
and offers no such guarantee. -/
theorem pipeline_collected_immutable (query : String) (collected : IDict)
    (raw : String) (f d : String) (h : dhas collected f = true) :
    dget (pipelineEligStep query collected raw) f d = dget collected f d := by
  unfold pipelineEligStep
  split
  · dsimp only
    split
    · unfold dupdate dget
      rw [List.find?_append]
      have hn : (extractFromMessage query collected raw).find?
          (fun p => p.1 == f) = none := by
        rw [List.find?_eq_none]
        intro a ha hpa
        have hna := extractFromMessage_not_collected query collected raw a ha
        rw [beq_iff_eq] at hpa
        rw [hpa, h] at hna
        exact absurd hna (by simp)
      rw [hn]
      rfl
    · rfl
  · rfl

/-- C2 witness: in the Pipeline variant, after `collected["age"] = "28"`, the
turn "I'm actually 30" (whose extraction replies `AGE: 30`) leaves the
collected age at 28. -/
theorem pipeline_collected_immutable_witness :
    dget [("age", "28")] "age" "unknown" = "28" ∧
    dget (pipelineEligStep "I'm actually 30" [("age", "28")] "AGE: 30")
      "age" "unknown" = "28" :=
  ⟨by decide,
    by
      rw [pipeline_collected_immutable "I'm actually 30" [("age", "28")]
        "AGE: 30" "age" "unknown" (by decide)]
      decide⟩

/-! ## C8 — total non-empty response -/

theorem eligFallback_ne_empty (f : String) : eligFallback f ≠ "" := by
  unfold eligFallback
  repeat' split
  all_goals
    first
    | decide
    | exact string_append_ne_empty_left _ _
        (string_append_ne_empty_left _ _ (by decide))

theorem fallbackQuestions_ne_empty (pt : String) (f : Frame) :
    fallbackQuestions pt f ≠ "" := by
  have h0 : "I'd love to help you find the right " ++
      pyUnderscoreToSpace pt ++ "! " ≠ "" :=
    string_append_ne_empty_left _ _
      (string_append_ne_empty_left _ _ (by decide))
  unfold fallbackQuestions
  dsimp only
  repeat' split
  all_goals exact pyJoin_cons_ne_empty _ _ _ h0

theorem generateClarifyingQuestions_ne_empty (dp : String) (f : Frame)
    (o : Oracle) : generateClarifyingQuestions dp f o ≠ "" := by
  unfold generateClarifyingQuestions
  dsimp only
  repeat' split
  all_goals
    first
    | exact fallbackQuestions_ne_empty dp f
    | exact strOr_ne_empty _ _ (fallbackQuestions_ne_empty dp f)

/-- A clarification turn of the eligibility collector always carries a
non-empty response (gateway reply or hardcoded fallback). -/
theorem runEligConv_some_response (q : String) (st : SessionState)
    (o : Oracle) (r : RunResult) (st' : SessionState)
    (h : runEligConv q st o = (some r, st')) : r.response ≠ "" := by
  unfold runEligConv at h
  dsimp only at h
  split at h
  · simp at h
  · rw [Prod.mk.injEq] at h
    obtain ⟨h1, -⟩ := h
    rw [Option.some.injEq] at h1
    subst h1
    exact strOr_ne_empty _ _ (eligFallback_ne_empty _)

/-- C8 counterexample: a fresh session, a sufficient product_info intent, and
a crew whose kickoff output is empty — `run` returns an empty response
string to the caller instead of degrading to fallback text. -/
theorem total_response_cx :
    (runCrew "I want a gold credit card for travel, I'm salaried"
      SessionState.init oracleCrewEmpty).1.response = "" := by decide

/-- C8 amended: every instant-reply, clarification and eligibility-prompt
path returns a non-empty response backed by a hardcoded fallback, but the
stage-sequencer paths (main task and eligibility completion) return the crew
kickoff output verbatim, which may be empty. -/
theorem response_nonempty_or_crew (query : String) (st : SessionState)
    (o : Oracle) :
    (runCrew query st o).1.response ≠ "" ∨
    (runCrew query st o).1.response = o.crewResponse := by
  unfold runCrew
  split
  · rcases hR : runEligConv query st o with ⟨res, st1⟩
    cases res with
    | some r =>
      dsimp only
      left
      exact runEligConv_some_response query st o r st1 hR
    | none =>
      dsimp only
      right
      rfl
  · try dsimp only
    split
    · left
      exact strOr_ne_empty _ _ (by decide)
    · split
      · left
        exact strOr_ne_empty _ _ (by decide)
      · split
        · left
          exact strOr_ne_empty _ _ (by decide)
        · try dsimp only
          split
          · left
            exact generateClarifyingQuestions_ne_empty _ _ o
          · try dsimp only
            split
            · left
              exact strOr_ne_empty _ _ (string_append_ne_empty_left _ _
                (string_append_ne_empty_left _ _ (by decide)))
            · right
              rfl

end PrimeBank
